import Mathlib

/-!
Shallow embedding of the product-api repository: the Express router
(routes/productRoutes.js) over a Mongoose/MongoDB store.  Stores are lists
of product records; the storage engine's find/sort/skip/limit pipeline and
the by-id operations are embedded as pure list functions; a possible
storage fault is passed to each route handler as an explicit parameter
standing for the promise rejection the handler's catch block receives.
-/

namespace ProductApi

/-- A stored product record, after the schema documented in the README
(models/Product.js): name, description, price, category required, inStock
defaulting to true, tags to the empty list, createdAt set at creation.
Prices are modelled as rationals, timestamps and ids as naturals. -/
structure Product where
  id : Nat
  name : String
  description : String
  price : ℚ
  category : String
  inStock : Bool
  tags : List String
  createdAt : Nat
deriving Repr, DecidableEq

/-! ### JavaScript numeric coercion helpers -/

/-- The run of decimal digits at the head of a character list: their values
and the remaining characters. -/
def takeDigits : List Char → List Nat × List Char
  | [] => ([], [])
  | c :: cs =>
    if c.isDigit then
      let p := takeDigits cs
      ((c.toNat - 48) :: p.1, p.2)
    else ([], c :: cs)

/-- Value of a digit run read most-significant first. -/
def natFromDigits (ds : List Nat) : Nat := ds.foldl (fun a d => 10 * a + d) 0

/-- Optional leading sign: whether it was a minus, and the rest. -/
def takeSign : List Char → Bool × List Char
  | '-' :: cs => (true, cs)
  | '+' :: cs => (false, cs)
  | cs => (false, cs)

/-- JS parseInt on a decimal string: leading whitespace, an optional sign,
then the longest digit prefix; NaN (modelled as none) when no digit is
found.  Radix prefixes are not modelled: no caller of this API sends
them. -/
def parseInt (s : String) : Option Int :=
  let cs := s.data.dropWhile Char.isWhitespace
  let sgn := takeSign cs
  let ds := (takeDigits sgn.2).1
  if ds.isEmpty then none
  else some (if sgn.1 then -(natFromDigits ds : Int) else (natFromDigits ds : Int))

/-- JS parseFloat on a decimal string: leading whitespace, an optional
sign, integer digits, then an optional fraction after a dot; NaN (modelled
as none) when no digit at all is found.  Exponent and Infinity forms are
not modelled: no caller of this API sends them. -/
def parseFloat (s : String) : Option ℚ :=
  let cs := s.data.dropWhile Char.isWhitespace
  let sgn := takeSign cs
  let ip := takeDigits sgn.2
  let fs :=
    match ip.2 with
    | '.' :: rest => (takeDigits rest).1
    | _ => []
  if ip.1.isEmpty && fs.isEmpty then none
  else
    let mag : ℚ :=
      if fs.isEmpty then (natFromDigits ip.1 : ℚ)
      else (natFromDigits ip.1 : ℚ) + (natFromDigits fs : ℚ) / ((10 : ℚ) ^ fs.length)
    some (if sgn.1 then -mag else mag)

/-- JS truthiness of an optional query-string value: an absent parameter
and the empty string are falsy; every other string is truthy. -/
def truthy : Option String → Bool
  | none => false
  | some s => s != ""

/-- JS `v || d` applied to a parseInt result: NaN (none) and 0 are falsy
and give the default. -/
def jsOrInt (v : Option Int) (d : Int) : Int :=
  match v with
  | none => d
  | some n => if n = 0 then d else n

/-! ### The list route's query builder (lines 8-40 of the router) -/

/-- Raw query-string parameters of the list route; each may be absent. -/
structure ListParams where
  category : Option String := none
  minPrice : Option String := none
  maxPrice : Option String := none
  sortBy : Option String := none
  page : Option String := none
  limit : Option String := none
deriving Repr, DecidableEq

/-- The price sub-document of the built Mongo query: the gte/lte bounds.
An outer none is a bound never written; `some none` is a bound written
with value NaN (a parseFloat failure). -/
structure PriceFilter where
  gte : Option (Option ℚ) := none
  lte : Option (Option ℚ) := none
deriving Repr, DecidableEq

/-- The dynamically built Mongo query object. -/
structure MongoQuery where
  category : Option String := none
  price : Option PriceFilter := none
deriving Repr, DecidableEq

/-- The sort object: {} (natural order), {price: 1} or {price: -1}. -/
inductive SortSpec
  | natural
  | priceAsc
  | priceDesc
deriving Repr, DecidableEq

/-- Lines 9-25: the query object after the two conditional blocks.  The
category is copied verbatim when truthy; the price sub-document exists
when minPrice or maxPrice is truthy, and each truthy side contributes the
raw parseFloat of its string (NaN included). -/
def buildQuery (q : ListParams) : MongoQuery :=
  { category := if truthy q.category then q.category else none
    price :=
      if truthy q.minPrice || truthy q.maxPrice then
        some
          { gte := if truthy q.minPrice then some (parseFloat (q.minPrice.getD "")) else none
            lte := if truthy q.maxPrice then some (parseFloat (q.maxPrice.getD "")) else none }
      else none }

/-- Line 28: `const page = parseInt(req.query.page) || 1`. -/
def pageOf (q : ListParams) : Int := jsOrInt (q.page.bind parseInt) 1

/-- Line 29: `const limit = parseInt(req.query.limit) || 10`. -/
def limitOf (q : ListParams) : Int := jsOrInt (q.limit.bind parseInt) 10

/-- Line 30: `const skip = (page - 1) * limit`. -/
def skipOf (q : ListParams) : Int := (pageOf q - 1) * limitOf q

/-- Lines 33-40: the sort object. -/
def buildSort (q : ListParams) : SortSpec :=
  if truthy q.sortBy then
    if q.sortBy == some "price_asc" then .priceAsc
    else if q.sortBy == some "price_desc" then .priceDesc
    else .natural
  else .natural

/-- The full filter/sort/pagination descriptor the list route derives from
its raw parameters and hands to the storage engine. -/
structure Descriptor where
  query : MongoQuery
  sort : SortSpec
  page : Int
  limit : Int
  skip : Int
deriving Repr, DecidableEq

def buildDescriptor (q : ListParams) : Descriptor :=
  { query := buildQuery q
    sort := buildSort q
    page := pageOf q
    limit := limitOf q
    skip := skipOf q }

/-! ### The storage engine's query pipeline -/

/-- A gte bound against a stored numeric price.  In the BSON comparison
order NaN sorts below every number, so a gte-NaN bound holds of every
numeric price. -/
def gteMatches : Option (Option ℚ) → ℚ → Bool
  | none, _ => true
  | some none, _ => true
  | some (some a), p => decide (a ≤ p)

/-- An lte bound against a stored numeric price: no numeric price is
lte NaN. -/
def lteMatches : Option (Option ℚ) → ℚ → Bool
  | none, _ => true
  | some none, _ => false
  | some (some b), p => decide (p ≤ b)

/-- Whether a stored record matches the built query object. -/
def matchesQuery (m : MongoQuery) (r : Product) : Bool :=
  (match m.category with
   | none => true
   | some c => r.category == c) &&
  (match m.price with
   | none => true
   | some pf => gteMatches pf.gte r.price && lteMatches pf.lte r.price)

/-- Ascending price comparison, the sort key of {price: 1}. -/
def priceLE (a b : Product) : Prop := a.price ≤ b.price

/-- Descending price comparison, the sort key of {price: -1}. -/
def priceGE (a b : Product) : Prop := b.price ≤ a.price

instance : DecidableRel priceLE := fun a b => inferInstanceAs (Decidable (a.price ≤ b.price))

instance : DecidableRel priceGE := fun a b => inferInstanceAs (Decidable (b.price ≤ a.price))

instance : IsTotal Product priceLE := ⟨fun a b => le_total a.price b.price⟩

instance : IsTotal Product priceGE := ⟨fun a b => le_total b.price a.price⟩

instance : IsTrans Product priceLE := ⟨fun _ _ _ hab hbc => le_trans hab hbc⟩

instance : IsTrans Product priceGE := ⟨fun _ _ _ hab hbc => le_trans hbc hab⟩

/-- The sort stage: natural order is the identity, the price sorts order
by the price key (a sort on one key; the engine fixes no tie order, this
model uses a stable one). -/
def sortRecords : SortSpec → List Product → List Product
  | .natural, l => l
  | .priceAsc, l => l.insertionSort priceLE
  | .priceDesc, l => l.insertionSort priceGE

/-- Product.find(query).sort(sort).skip(skip).limit(limit), lines 43-46:
filter, sort, then window-slice.  The claims below only exercise
nonnegative skip and limit values, where the Int.toNat truncation is
exact. -/
def find (store : List Product) (d : Descriptor) : List Product :=
  ((sortRecords d.sort (store.filter (matchesQuery d.query))).drop d.skip.toNat).take
    d.limit.toNat

/-! ### Responses and the five route handlers -/

/-- A JSON response body: a record list, a single record, or a message
object. -/
inductive Body
  | products (l : List Product)
  | product (p : Product)
  | message (m : String)
deriving Repr, DecidableEq

/-- An HTTP response: status code and JSON body. -/
structure Response where
  status : Nat
  body : Body
deriving Repr, DecidableEq

/-- GET / (lines 6-52): build the descriptor and run the query; any
storage fault is caught and mapped to 500 with the fault's message. -/
def getProducts (store : List Product) (q : ListParams) (fault : Option String) : Response :=
  match fault with
  | some m => ⟨500, .message m⟩
  | none => ⟨200, .products (find store (buildDescriptor q))⟩

/-- Product.findById: the record whose id matches, if any. -/
def findById (store : List Product) (i : Nat) : Option Product :=
  store.find? (fun r => r.id == i)

/-- GET /:id (lines 55-65): 404 when the id is absent, 500 on a storage
fault. -/
def getProductById (store : List Product) (i : Nat) (fault : Option String) : Response :=
  match fault with
  | some m => ⟨500, .message m⟩
  | none =>
    match findById store i with
    | none => ⟨404, .message "Product not found"⟩
    | some p => ⟨200, .product p⟩


/-! ### Create -/

/-- A create request body: the six fields lines 70-77 read, plus whatever
else the client sent (a candidate id, a candidate creation time, any other
keys), which those lines never look at. -/
structure CreateBody where
  name : Option String := none
  description : Option String := none
  price : Option ℚ := none
  category : Option String := none
  inStock : Option Bool := none
  tags : Option (List String) := none
  suppliedId : Option Nat := none
  suppliedCreatedAt : Option Nat := none
  extra : List (String × String) := []
deriving Repr, DecidableEq

/-- The candidate document `new Product({...})` builds: exactly the six
schema fields read from the body. -/
structure Candidate where
  name : Option String
  description : Option String
  price : Option ℚ
  category : Option String
  inStock : Option Bool
  tags : Option (List String)
deriving Repr, DecidableEq

/-- Lines 70-77: the constructor argument reads only the six product
fields of the body. -/
def candidateOf (b : CreateBody) : Candidate :=
  { name := b.name
    description := b.description
    price := b.price
    category := b.category
    inStock := b.inStock
    tags := b.tags }

/-- Modelled from the spec: models/Product.js is not among the sources, so
the schema validation it declares is taken from the README schema and §3
of the design: name, description, price and category are required
(strings non-empty), and price must be strictly greater than 0. -/
def validCandidate (c : Candidate) : Bool :=
  (match c.name with | none => false | some s => s != "") &&
  (match c.description with | none => false | some s => s != "") &&
  (match c.category with | none => false | some s => s != "") &&
  (match c.price with | none => false | some q => decide (0 < q))

/-- product.save(), line 79: schema validation first, then the insert;
either kind of failure is a rejection the route's catch receives.  The
engine assigns the new id and the creation time; inStock defaults to true
and tags to empty. -/
def saveCandidate (c : Candidate) (store : List Product) (fault : Option String)
    (newId now : Nat) : Except String (Product × List Product) :=
  if validCandidate c then
    match fault with
    | some m => .error m
    | none =>
      let p : Product :=
        { id := newId
          name := c.name.getD ""
          description := c.description.getD ""
          price := c.price.getD 0
          category := c.category.getD ""
          inStock := c.inStock.getD true
          tags := c.tags.getD []
          createdAt := now }
      .ok (p, store ++ [p])
  else .error "Product validation failed"

/-- POST / (lines 68-84): every rejection, validation failure or storage
fault alike, lands in the catch and becomes a 400. -/
def createProduct (store : List Product) (b : CreateBody) (fault : Option String)
    (newId now : Nat) : Response × List Product :=
  match saveCandidate (candidateOf b) store fault newId now with
  | .error m => (⟨400, .message m⟩, store)
  | .ok (p, store2) => (⟨201, .product p⟩, store2)

/-! ### Update -/

/-- A PUT request body: a partial record.  Every schema path, createdAt
included, may appear, and so may _id (which MongoDB refuses to change);
keys outside the schema are stripped by the ODM's strict mode and are not
represented. -/
structure UpdateBody where
  idField : Option Nat := none
  name : Option String := none
  description : Option String := none
  price : Option ℚ := none
  category : Option String := none
  inStock : Option Bool := none
  tags : Option (List String) := none
  createdAt : Option Nat := none
deriving Repr, DecidableEq

/-- Modelled from the spec: with runValidators each path being set is
re-checked against the schema of models/Product.js (absent from the
sources): a set string must stay non-empty and a set price strictly
positive. -/
def validUpdate (b : UpdateBody) : Bool :=
  (match b.name with | none => true | some s => s != "") &&
  (match b.description with | none => true | some s => s != "") &&
  (match b.category with | none => true | some s => s != "") &&
  (match b.price with | none => true | some q => decide (0 < q))

/-- The merged record: each body path overwrites the stored one; _id is
never a written path. -/
def applyUpdate (r : Product) (b : UpdateBody) : Product :=
  { id := r.id
    name := b.name.getD r.name
    description := b.description.getD r.description
    price := b.price.getD r.price
    category := b.category.getD r.category
    inStock := b.inStock.getD r.inStock
    tags := b.tags.getD r.tags
    createdAt := b.createdAt.getD r.createdAt }

/-- Product.findByIdAndUpdate(id, body, {new: true, runValidators: true}),
lines 89-93: none when the id is absent; a rejection when the body tries
to change the immutable _id or a validator fails; otherwise the
post-update record and store. -/
def findByIdAndUpdate (store : List Product) (i : Nat) (b : UpdateBody) :
    Except String (Option (Product × List Product)) :=
  match findById store i with
  | none => .ok none
  | some r =>
    if b.idField.getD i ≠ i then
      .error "Performing an update on the path _id would modify the immutable field _id"
    else if !validUpdate b then .error "Product validation failed"
    else
      let r2 := applyUpdate r b
      .ok (some (r2, store.map fun x => if x.id == i then r2 else x))

/-- PUT /:id (lines 87-103): the catch maps every rejection, storage
faults included, to 400; a missing id is a 404. -/
def updateProduct (store : List Product) (i : Nat) (b : UpdateBody) (fault : Option String) :
    Response × List Product :=
  match fault with
  | some m => (⟨400, .message m⟩, store)
  | none =>
    match findByIdAndUpdate store i b with
    | .error m => (⟨400, .message m⟩, store)
    | .ok none => (⟨404, .message "Product not found"⟩, store)
    | .ok (some (r2, store2)) => (⟨200, .product r2⟩, store2)

/-! ### Delete -/

/-- Product.findByIdAndDelete, line 108: removes the record carrying the
id, returning it, or none when the id is absent. -/
def findByIdAndDelete (store : List Product) (i : Nat) :
    Option (Product × List Product) :=
  match findById store i with
  | none => none
  | some r => some (r, store.eraseP (fun x => x.id == i))

/-- DELETE /:id (lines 106-118): 404 when the id is absent, 500 on a
storage fault. -/
def deleteProduct (store : List Product) (i : Nat) (fault : Option String) :
    Response × List Product :=
  match fault with
  | some m => (⟨500, .message m⟩, store)
  | none =>
    match findByIdAndDelete store i with
    | none => (⟨404, .message "Product not found"⟩, store)
    | some p => (⟨200, .message "Product deleted successfully"⟩, p.2)

/-! ### C1: invalid numeric price parameters -/

/-- C1 counterexample: with minPrice "abc" (present but non-numeric) the
descriptor is not the one of an omitted minPrice: the built query carries
a price filter whose lower bound is NaN. -/
theorem c1_invalid_minPrice_not_absent :
    buildDescriptor { minPrice := some "abc" } ≠ buildDescriptor {} ∧
    (buildQuery { minPrice := some "abc" }).price = some { gte := some none } := by
  decide

/-- C1 (amended): a present, non-empty minPrice (resp. maxPrice) that does
not parse as a decimal number is not treated as absent: the price filter
carries that side's bound with value NaN, and the descriptor differs from
the one produced when the parameter is omitted. -/
theorem invalid_price_param_keeps_nan_bound :
    (∀ (q : ListParams) (s : String), q.minPrice = some s → s ≠ "" → parseFloat s = none →
      (∃ pf : PriceFilter, (buildQuery q).price = some pf ∧ pf.gte = some none) ∧
      buildDescriptor q ≠ buildDescriptor { q with minPrice := none }) ∧
    (∀ (q : ListParams) (s : String), q.maxPrice = some s → s ≠ "" → parseFloat s = none →
      (∃ pf : PriceFilter, (buildQuery q).price = some pf ∧ pf.lte = some none) ∧
      buildDescriptor q ≠ buildDescriptor { q with maxPrice := none }) := by
  constructor
  · intro q s hq hs hp
    refine ⟨⟨{ gte := some none
               lte := if truthy q.maxPrice then some (parseFloat (q.maxPrice.getD "")) else none },
             ?_, rfl⟩, ?_⟩
    · simp [buildQuery, hq, truthy, hs, hp]
    · intro hEq
      have h3 := congrArg (fun d => d.query.price) hEq
      simp [buildDescriptor, buildQuery, hq, truthy, hs, hp] at h3
  · intro q s hq hs hp
    refine ⟨⟨{ gte := if truthy q.minPrice then some (parseFloat (q.minPrice.getD "")) else none
               lte := some none },
             ?_, rfl⟩, ?_⟩
    · simp [buildQuery, hq, truthy, hs, hp]
    · intro hEq
      have h3 := congrArg (fun d => d.query.price) hEq
      simp [buildDescriptor, buildQuery, hq, truthy, hs, hp] at h3

/-- Witness for invalid_price_param_keeps_nan_bound at minPrice "abc". -/
theorem invalid_price_param_keeps_nan_bound_witness :
    (∃ pf : PriceFilter, (buildQuery { minPrice := some "abc" }).price = some pf ∧
      pf.gte = some none) ∧
    buildDescriptor { minPrice := some "abc" } ≠
      buildDescriptor { ({ minPrice := some "abc" } : ListParams) with minPrice := none } :=
  invalid_price_param_keeps_nan_bound.1 { minPrice := some "abc" } "abc" rfl (by decide)
    (by decide)

/-! ### C3: page parsing -/

/-- C3 counterexample: a page of "0" is not kept as-is: parseInt yields
the falsy 0, the default replaces it by 1, and the descriptor is the one
of an absent page (skip 0, not negative). -/
theorem c3_page_zero_replaced :
    (buildDescriptor { page := some "0" }).page = 1 ∧
    (buildDescriptor { page := some "0" }).skip = 0 ∧
    buildDescriptor { page := some "0" } = buildDescriptor {} := by
  decide

/-- C3 (amended): page is parsed as an integer and defaults to 1 when
absent, non-numeric, or parsed to the falsy 0; a nonzero parse, negative
included, is kept as-is, and the derived skip is (page - 1) * limit. -/
theorem page_parse (q : ListParams) :
    (∀ s k, q.page = some s → parseInt s = some k → k ≠ 0 → pageOf q = k) ∧
    (q.page = none → pageOf q = 1) ∧
    (∀ s, q.page = some s → parseInt s = none → pageOf q = 1) ∧
    (∀ s, q.page = some s → parseInt s = some 0 → pageOf q = 1) ∧
    skipOf q = (pageOf q - 1) * limitOf q := by
  refine ⟨?_, ?_, ?_, ?_, rfl⟩
  · intro s k hs hk hne; simp [pageOf, hs, hk, jsOrInt, hne]
  · intro h; simp [pageOf, h, jsOrInt]
  · intro s hs hk; simp [pageOf, hs, hk, jsOrInt]
  · intro s hs hk; simp [pageOf, hs, hk, jsOrInt]

/-- Witness for page_parse: page "-3" is kept (so skip goes negative) and
an absent page defaults to 1. -/
theorem page_parse_witness :
    pageOf { page := some "-3" } = -3 ∧ pageOf {} = 1 ∧
    skipOf { page := some "-3" } = (pageOf { page := some "-3" } - 1) * limitOf { page := some "-3" } :=
  ⟨(page_parse { page := some "-3" }).1 "-3" (-3) rfl (by decide) (by decide),
   (page_parse {}).2.1 rfl,
   (page_parse { page := some "-3" }).2.2.2.2⟩

/-! ### C9: limit "0" -/

/-- C9: a limit of "0" parses to the falsy 0 and is replaced by the
default page size 10, exactly as when limit is omitted: a zero-item page
cannot be requested. -/
theorem limit_zero_gives_default (q : ListParams) :
    limitOf { q with limit := some "0" } = 10 ∧
    limitOf { q with limit := some "0" } = limitOf { q with limit := none } :=
  ⟨rfl, rfl⟩

/-! ### Sample records for concrete witnesses and counterexamples -/

def mouse : Product :=
  { id := 1, name := "Mouse", description := "wireless mouse", price := 30,
    category := "Electronics", inStock := true, tags := [], createdAt := 0 }

def lamp : Product :=
  { id := 2, name := "Lamp", description := "desk lamp", price := 12,
    category := "Home", inStock := true, tags := [], createdAt := 1 }

def laptop : Product :=
  { id := 3, name := "Laptop", description := "fast laptop", price := 1000,
    category := "Electronics", inStock := true, tags := [], createdAt := 2 }

def sampleStore : List Product := [mouse, lamp, laptop]

def validBody : CreateBody :=
  { name := some "Mouse", description := some "wireless mouse",
    price := some 30, category := some "Electronics" }

/-! ### C2: update and the immutable fields -/

/-- C2 counterexample: a PUT body carrying createdAt succeeds (200) and
changes the stored createdAt. -/
theorem c2_update_changes_createdAt :
    (updateProduct [mouse] 1 { createdAt := some 7 } none).1 =
      ⟨200, .product { mouse with createdAt := 7 }⟩ ∧
    ({ mouse with createdAt := 7 } : Product).createdAt ≠ mouse.createdAt := by
  decide

/-- Shape of a fault-free update that passes the _id guard and the
validators: the merged record, written back in place. -/
theorem updateProduct_ok (store : List Product) (i : Nat) (b : UpdateBody) (r0 : Product)
    (h0 : findById store i = some r0) (heq : b.idField.getD i = i)
    (hv : validUpdate b = true) :
    updateProduct store i b none =
      (⟨200, .product (applyUpdate r0 b)⟩,
        store.map fun x => if x.id == i then applyUpdate r0 b else x) := by
  unfold updateProduct findByIdAndUpdate
  rw [h0]
  simp [heq, hv]

/-- C2 (amended): a successful update never changes the record's id, and
createdAt is unchanged whenever the update body does not itself carry a
createdAt field; a body that does carry one overwrites it. -/
theorem update_preserves_id_and_createdAt (store store2 : List Product) (i : Nat)
    (b : UpdateBody) (r0 r2 : Product)
    (h0 : findById store i = some r0)
    (h : updateProduct store i b none = (⟨200, .product r2⟩, store2)) :
    r2.id = r0.id ∧ (b.createdAt = none → r2.createdAt = r0.createdAt) := by
  by_cases hid : b.idField.getD i = i
  · by_cases hv : validUpdate b = true
    · rw [updateProduct_ok store i b r0 h0 hid hv] at h
      have h1 : applyUpdate r0 b = r2 := by
        have h2 := congrArg (fun t => t.1.body) h
        simpa using h2
      subst h1
      exact ⟨rfl, fun hc => by simp [applyUpdate, hc]⟩
    · have hv2 : validUpdate b = false := by simpa using hv
      have hs : (updateProduct store i b none).1.status = 400 := by
        unfold updateProduct findByIdAndUpdate
        rw [h0]
        simp [hid, hv2]
      rw [h] at hs
      simp at hs
  · have hs : (updateProduct store i b none).1.status = 400 := by
      unfold updateProduct findByIdAndUpdate
      rw [h0]
      simp [hid]
    rw [h] at hs
    simp at hs

/-- Witness for update_preserves_id_and_createdAt: updating only the price
of the stored sample record keeps id and createdAt. -/
theorem update_preserves_id_and_createdAt_witness :
    ({ mouse with price := 9 } : Product).id = mouse.id ∧
    (({ price := some 9 } : UpdateBody).createdAt = none →
      ({ mouse with price := 9 } : Product).createdAt = mouse.createdAt) :=
  update_preserves_id_and_createdAt [mouse] [{ mouse with price := 9 }] 1
    { price := some 9 } mouse { mouse with price := 9 } (by decide) (by decide)

/-! ### C4: fault-to-status mapping -/

/-- C4 counterexample: a storage fault during create is answered with 400,
not 500: the create route's catch maps every rejection to 400. -/
theorem c4_storage_fault_on_create_gives_400 :
    (createProduct [] validBody (some "connection lost") 1 0).1.status = 400 := by
  decide

/-- C4 (amended): list, read-one and delete map storage faults to 500, but
create and update answer 400 to every caught rejection, storage faults
included; absent a fault, a 404 arises exactly when the targeted id does
not exist. -/
theorem error_status_taxonomy (store : List Product) (q : ListParams) (m : String)
    (i : Nat) (b : CreateBody) (u : UpdateBody) (newId now : Nat) :
    (getProducts store q (some m)).status = 500 ∧
    (getProductById store i (some m)).status = 500 ∧
    (deleteProduct store i (some m)).1.status = 500 ∧
    (createProduct store b (some m) newId now).1.status = 400 ∧
    (updateProduct store i u (some m)).1.status = 400 ∧
    ((getProductById store i none).status = 404 ↔ findById store i = none) ∧
    ((updateProduct store i u none).1.status = 404 ↔ findById store i = none) ∧
    ((deleteProduct store i none).1.status = 404 ↔ findById store i = none) := by
  refine ⟨rfl, rfl, rfl, ?_, rfl, ?_, ?_, ?_⟩
  · by_cases hv : validCandidate (candidateOf b) = true <;>
      simp [createProduct, saveCandidate, hv]
  · cases hf : findById store i with
    | none => simp [getProductById, hf]
    | some p => simp [getProductById, hf]
  · cases hf : findById store i with
    | none => simp [updateProduct, findByIdAndUpdate, hf]
    | some r =>
      by_cases hid : u.idField.getD i ≠ i
      · simp [updateProduct, findByIdAndUpdate, hf, hid]
      · by_cases hv : validUpdate u = true <;>
          simp [updateProduct, findByIdAndUpdate, hf, hid, hv]
  · cases hf : findById store i with
    | none => simp [deleteProduct, findByIdAndDelete, hf]
    | some r => simp [deleteProduct, findByIdAndDelete, hf]

/-- Witness for error_status_taxonomy: a concrete fault on the list route
and the read-one 404 criterion on the empty store. -/
theorem error_status_taxonomy_witness :
    (getProducts [] {} (some "server down")).status = 500 ∧
    findById ([] : List Product) 1 = none :=
  ⟨(error_status_taxonomy [] {} "server down" 1 {} {} 0 0).1,
   (error_status_taxonomy [] {} "server down" 1 {} {} 0 0).2.2.2.2.2.1.mp (by decide)⟩

/-! ### C10: create reads only the six schema fields -/

/-- The record a successful concrete create below stores. -/
def createdRec : Product :=
  { id := 5, name := "Mouse", description := "wireless mouse", price := 30,
    category := "Electronics", inStock := true, tags := [], createdAt := 42 }

/-- C10: create reads only the six product fields of its body: bodies
agreeing on those six yield identical outcomes whatever else they carry
(a client-supplied id or createdAt included), and a successful create
stores the engine-assigned id and creation time. -/
theorem create_reads_only_six_fields :
    (∀ (b1 b2 : CreateBody) (store : List Product) (fault : Option String) (newId now : Nat),
      b1.name = b2.name → b1.description = b2.description → b1.price = b2.price →
      b1.category = b2.category → b1.inStock = b2.inStock → b1.tags = b2.tags →
      createProduct store b1 fault newId now = createProduct store b2 fault newId now) ∧
    (∀ (b : CreateBody) (store store2 : List Product) (newId now : Nat) (p : Product),
      createProduct store b none newId now = (⟨201, .product p⟩, store2) →
      p.id = newId ∧ p.createdAt = now) := by
  constructor
  · intro b1 b2 store fault newId now h1 h2 h3 h4 h5 h6
    have hc : candidateOf b1 = candidateOf b2 := by
      simp [candidateOf, h1, h2, h3, h4, h5, h6]
    simp [createProduct, hc]
  · intro b store store2 newId now p h
    by_cases hv : validCandidate (candidateOf b) = true
    · simp only [createProduct, saveCandidate, hv, if_pos, ite_true] at h
      rw [Prod.ext_iff] at h
      obtain ⟨h1, -⟩ := h
      simp only [Response.mk.injEq, Body.product.injEq] at h1
      obtain ⟨-, h1⟩ := h1
      subst h1
      exact ⟨rfl, rfl⟩
    · simp [createProduct, saveCandidate, hv] at h

/-- Witness for create_reads_only_six_fields: a client-supplied id and
createdAt change nothing, and the stored record carries the assigned
ones. -/
theorem create_reads_only_six_fields_witness :
    (createProduct [] { validBody with suppliedId := some 99, suppliedCreatedAt := some 99 }
        none 5 42 =
      createProduct [] validBody none 5 42) ∧
    (createdRec.id = 5 ∧ createdRec.createdAt = 42) :=
  ⟨create_reads_only_six_fields.1 _ _ [] none 5 42 rfl rfl rfl rfl rfl rfl,
   create_reads_only_six_fields.2 validBody [] [createdRec] 5 42 createdRec (by decide)⟩

/-! ### C8: delete twice -/

/-- With ids unique across the store, erasing the record with a given id
leaves no record with that id. -/
theorem findById_eraseP (store : List Product) (i : Nat)
    (hnd : (store.map Product.id).Nodup) :
    findById (store.eraseP (fun x => x.id == i)) i = none := by
  induction store with
  | nil => rfl
  | cons x xs ih =>
    simp only [List.map_cons, List.nodup_cons] at hnd
    by_cases hx : (x.id == i) = true
    · simp only [List.eraseP_cons, hx, cond_true]
      have hxi : x.id = i := by simpa using hx
      rw [findById, List.find?_eq_none]
      intro y hy hyi
      have hyid : y.id = i := by simpa using hyi
      have hmem : (i : Nat) ∈ xs.map Product.id := hyid ▸ List.mem_map_of_mem Product.id hy
      exact hnd.1 (by rw [hxi]; exact hmem)
    · have hxf : (x.id == i) = false := by simpa using hx
      simp only [List.eraseP_cons, hxf, cond_false]
      rw [findById, List.find?_eq_none]
      intro y hy
      rcases List.mem_cons.mp hy with h1 | h1
      · subst h1; simp [hxf]
      · exact List.find?_eq_none.mp (ih hnd.2) y h1

/-- C8: deleting a stored id answers 200 and permanently removes the
record; repeating the delete answers 404. -/
theorem delete_twice (store : List Product) (i : Nat) (r : Product)
    (hnd : (store.map Product.id).Nodup) (h : findById store i = some r) :
    (deleteProduct store i none).1 = ⟨200, .message "Product deleted successfully"⟩ ∧
    findById (deleteProduct store i none).2 i = none ∧
    (deleteProduct (deleteProduct store i none).2 i none).1 =
      ⟨404, .message "Product not found"⟩ := by
  have h2 : (deleteProduct store i none).2 = store.eraseP (fun x => x.id == i) := by
    simp [deleteProduct, findByIdAndDelete, h]
  have h3 : findById (store.eraseP (fun x => x.id == i)) i = none :=
    findById_eraseP store i hnd
  refine ⟨?_, ?_, ?_⟩
  · simp [deleteProduct, findByIdAndDelete, h]
  · rw [h2]; exact h3
  · rw [h2]; simp [deleteProduct, findByIdAndDelete, h3]

/-- Witness for delete_twice on the sample store at id 2. -/
theorem delete_twice_witness :
    (deleteProduct sampleStore 2 none).1 = ⟨200, .message "Product deleted successfully"⟩ ∧
    findById (deleteProduct sampleStore 2 none).2 2 = none ∧
    (deleteProduct (deleteProduct sampleStore 2 none).2 2 none).1 =
      ⟨404, .message "Product not found"⟩ :=
  delete_twice sampleStore 2 lamp (by decide) (by decide)

/-! ### Shared facts about the list pipeline -/

/-- The sort stage permutes, so membership is unchanged. -/
theorem mem_sortRecords {s : SortSpec} {l : List Product} {r : Product} :
    r ∈ sortRecords s l ↔ r ∈ l := by
  cases s <;> simp [sortRecords, List.mem_insertionSort]

/-- Anything on a returned page matched the built query. -/
theorem mem_filter_of_mem_find {store : List Product} {d : Descriptor} {r : Product}
    (h : r ∈ find store d) : r ∈ store.filter (matchesQuery d.query) :=
  mem_sortRecords.mp (List.mem_of_mem_drop (List.mem_of_mem_take h))

/-- A string parseFloat accepts is not the empty string. -/
theorem parseFloat_nonempty {s : String} {a : ℚ} (h : parseFloat s = some a) : s ≠ "" := by
  intro he
  subst he
  have h0 : parseFloat "" = none := by decide
  rw [h0] at h
  exact Option.noConfusion h

/-- A record matching a query with a price sub-document satisfies both of
its bounds. -/
theorem matchesQuery_price_true {m : MongoQuery} {r : Product}
    (h : matchesQuery m r = true) {pf : PriceFilter} (hp : m.price = some pf) :
    gteMatches pf.gte r.price = true ∧ lteMatches pf.lte r.price = true := by
  unfold matchesQuery at h
  rw [hp] at h
  simp only [Bool.and_eq_true] at h
  exact h.2

/-! ### C6: inclusive price bounds -/

/-- C6: every record on a returned page respects each supplied numeric
price bound, both inclusive; an omitted bound imposes nothing on its side
while the other still applies. -/
theorem list_price_bounds (store : List Product) (q : ListParams) (l : List Product)
    (hl : getProducts store q none = ⟨200, .products l⟩) (r : Product) (hr : r ∈ l) :
    (∀ s a, q.minPrice = some s → parseFloat s = some a → a ≤ r.price) ∧
    (∀ s b, q.maxPrice = some s → parseFloat s = some b → r.price ≤ b) := by
  have hfind : find store (buildDescriptor q) = l := by
    have h2 := congrArg Response.body hl
    simpa [getProducts] using h2
  subst hfind
  have hmem := mem_filter_of_mem_find hr
  have hmatch : matchesQuery (buildDescriptor q).query r = true := (List.mem_filter.mp hmem).2
  constructor
  · intro s a hsq hpa
    have hne : s ≠ "" := parseFloat_nonempty hpa
    have hq : (buildDescriptor q).query.price = some
        { gte := some (some a)
          lte := if truthy q.maxPrice then some (parseFloat (q.maxPrice.getD "")) else none } := by
      simp [buildDescriptor, buildQuery, hsq, truthy, hne, hpa]
    have hb := (matchesQuery_price_true hmatch hq).1
    simpa [gteMatches] using hb
  · intro s b hsq hpb
    have hne : s ≠ "" := parseFloat_nonempty hpb
    have hq : (buildDescriptor q).query.price = some
        { gte := if truthy q.minPrice then some (parseFloat (q.minPrice.getD "")) else none
          lte := some (some b) } := by
      simp [buildDescriptor, buildQuery, hsq, truthy, hne, hpb]
    have hb := (matchesQuery_price_true hmatch hq).2
    simpa [lteMatches] using hb

def rangeParams : ListParams := { minPrice := some "20", maxPrice := some "40" }

/-- Witness for list_price_bounds: on the sample store with bounds 20 and
40, the returned record's price lies in [20, 40]. -/
theorem list_price_bounds_witness :
    (20 : ℚ) ≤ mouse.price ∧ mouse.price ≤ 40 :=
  ⟨(list_price_bounds sampleStore rangeParams [mouse] (by decide) mouse (by decide)).1
      "20" 20 rfl (by decide),
   (list_price_bounds sampleStore rangeParams [mouse] (by decide) mouse (by decide)).2
      "40" 40 rfl (by decide)⟩

/-! ### C5: the pagination window -/

/-- C5: with parsed page p ≥ 1 and limit n ≥ 1, the returned sequence is
the matching records, after filter and sort, with the first (p-1)*n
dropped and at most the next n taken. -/
theorem pagination_window (store : List Product) (q : ListParams) (p n : Int)
    (hp : q.page.bind parseInt = some p) (hn : q.limit.bind parseInt = some n)
    (hp1 : 1 ≤ p) (hn1 : 1 ≤ n) :
    getProducts store q none =
      ⟨200, .products (((sortRecords (buildSort q)
          (store.filter (matchesQuery (buildQuery q)))).drop
            ((p - 1) * n).toNat).take n.toNat)⟩ ∧
    (find store (buildDescriptor q)).length ≤ n.toNat := by
  have hpage : pageOf q = p := by
    have hz : p ≠ 0 := by omega
    simp [pageOf, hp, jsOrInt, hz]
  have hlimit : limitOf q = n := by
    have hz : n ≠ 0 := by omega
    simp [limitOf, hn, jsOrInt, hz]
  have hskip : skipOf q = (p - 1) * n := by rw [skipOf, hpage, hlimit]
  constructor
  · simp [getProducts, find, buildDescriptor, hskip, hlimit]
  · rw [find]
    simp only [buildDescriptor, hlimit]
    exact List.length_take_le _ _

def pageParams : ListParams := { page := some "2", limit := some "5" }

/-- Witness for pagination_window: page=2&limit=5 on the sample store
skips the first 5 matching records and returns at most the next 5. -/
theorem pagination_window_witness :
    (getProducts sampleStore pageParams none =
      ⟨200, .products (((sortRecords (buildSort pageParams)
          (sampleStore.filter (matchesQuery (buildQuery pageParams)))).drop
            (((2 : Int) - 1) * 5).toNat).take ((5 : Int)).toNat)⟩) ∧
    (find sampleStore (buildDescriptor pageParams)).length ≤ ((5 : Int)).toNat :=
  pagination_window sampleStore pageParams 2 5 (by decide) (by decide) (by decide) (by decide)

/-! ### C7: the sort stage -/

/-- The ascending price sort produces a non-decreasing price sequence. -/
theorem pairwise_sortRecords_asc (l : List Product) :
    (sortRecords .priceAsc l).Pairwise (fun x y => x.price ≤ y.price) :=
  (List.sorted_insertionSort priceLE l).imp (fun h => h)

/-- The descending price sort produces a non-increasing price sequence. -/
theorem pairwise_sortRecords_desc (l : List Product) :
    (sortRecords .priceDesc l).Pairwise (fun x y => y.price ≤ x.price) :=
  (List.sorted_insertionSort priceGE l).imp (fun h => h)

/-- C7: sortBy price_asc yields a non-decreasing price page, price_desc a
non-increasing one, and any other value (absent included) leaves the
filtered records in store order, merely window-sliced. -/
theorem list_sort_order (store : List Product) (q : ListParams) (l : List Product)
    (hl : getProducts store q none = ⟨200, .products l⟩) :
    (q.sortBy = some "price_asc" → l.Pairwise (fun x y => x.price ≤ y.price)) ∧
    (q.sortBy = some "price_desc" → l.Pairwise (fun x y => y.price ≤ x.price)) ∧
    ((q.sortBy = none ∨ ∃ s, q.sortBy = some s ∧ s ≠ "price_asc" ∧ s ≠ "price_desc") →
      l = ((store.filter (matchesQuery (buildQuery q))).drop (skipOf q).toNat).take
        (limitOf q).toNat) := by
  have hfind : find store (buildDescriptor q) = l := by
    have h2 := congrArg Response.body hl
    simpa [getProducts] using h2
  subst hfind
  refine ⟨?_, ?_, ?_⟩
  · intro hs
    have hsort : (buildDescriptor q).sort = SortSpec.priceAsc := by
      simp only [buildDescriptor, buildSort, hs]
      decide
    rw [find, hsort]
    exact List.Pairwise.sublist ((List.take_sublist _ _).trans (List.drop_sublist _ _))
      (pairwise_sortRecords_asc _)
  · intro hs
    have hsort : (buildDescriptor q).sort = SortSpec.priceDesc := by
      simp only [buildDescriptor, buildSort, hs]
      decide
    rw [find, hsort]
    exact List.Pairwise.sublist ((List.take_sublist _ _).trans (List.drop_sublist _ _))
      (pairwise_sortRecords_desc _)
  · intro hs
    have hsort : (buildDescriptor q).sort = SortSpec.natural := by
      rcases hs with h1 | ⟨s, hs1, hs2, hs3⟩
      · simp only [buildDescriptor, buildSort, h1]
        decide
      · by_cases hse : s = ""
        · subst hse
          simp only [buildDescriptor, buildSort, hs1]
          decide
        · have hb1 : (s == "price_asc") = false := by simpa using hs2
          have hb2 : (s == "price_desc") = false := by simpa using hs3
          simp [buildDescriptor, buildSort, hs1, truthy, hse, hb1, hb2]
    rw [find, hsort]
    rfl

def ascParams : ListParams := { sortBy := some "price_asc" }

/-- Witness for list_sort_order: the sample store listed with price_asc
comes back in non-decreasing price order. -/
theorem list_sort_order_witness :
    ([lamp, mouse, laptop] : List Product).Pairwise (fun x y => x.price ≤ y.price) :=
  (list_sort_order sampleStore ascParams [lamp, mouse, laptop] (by decide)).1 rfl

end ProductApi
